import Mathlib

/-!
# may_first: the user-interface module `ui.c`

A shallow embedding of the parts of `ui.c` (and of the option in `level_design.h`)
that touch program and game state: the breakout handler `test`, the volume
controls, the key handlers and the event queue.

Conventions of the embedding.

* C `int` values are mathematical integers (`Int`).  Pointers into the game state
  are indices into a store (`Option Nat`, `none` being `NULL`); dereferencing
  `NULL` stops the run with `Fault.null_deref`.
* Functions of the repository that `ui.c` calls but does not define
  (`start_move`, `start_fire`, `toggle_pause`, ...) are recorded, in call order, in
  a trace, and their effect on the state is a parameter (`Env.ext`).
* Constants and macros declared in headers outside the two source files
  (`RM_RUNNING`, `VOLUME_STEPS`, `sgn`, ...) are parameters (`Config`).
-/

namespace MayFirst

/-! ## Game state reached from `ui.c` -/

/-- Modelled from the spec: the AI modes of an enemy.  The enumeration is declared in
`game.h`, which is not among the sources; `ui.c` itself names only `FREE`. -/
inductive ai_mode_t
  | FORMATION
  | FREE
  | ATTACKING
  | DESTROYED
  deriving DecidableEq, Repr

/-- Modelled from the spec: a 2D vector (`velocity.x` is the only component `ui.c` reads).
The scalar type is declared outside the sources; it is taken to be the integers, on
which the two operations used (`sgn`, multiplication by `-1`) are exact. -/
structure vector_t where
  x : Int
  y : Int
  deriving DecidableEq, Repr

/-- The fields of `enemy_t` that `ui.c` accesses: `ai_mode`, `velocity` and the
back-pointer `formation` (an index into `game_state_t.formations`, `none` for `NULL`). -/
structure enemy_t where
  ai_mode : ai_mode_t
  velocity : vector_t
  formation : Option Nat
  deriving DecidableEq, Repr

/-- One element of `formation_t.ranks`: `occupied_by` is a nullable pointer to an enemy
(an index into `game_state_t.enemies`), `fillfrom_index` the fill-from table. -/
structure rank_t where
  occupied_by : Option Nat
  fillfrom_index : List Int
  deriving DecidableEq, Repr

/-- The fields of `formation_t` that `ui.c` accesses. -/
structure formation_t where
  ranks : List rank_t
  velocity : vector_t
  deriving DecidableEq, Repr

/-- The part of `game_state_t` reachable from `ui.c`: the formation array and the store
of enemies that the `enemy_t*` pointers point into. -/
structure game_state_t where
  formations : List formation_t
  enemies : List enemy_t
  deriving DecidableEq, Repr

/-- Ways in which a run of the C code stops without returning. -/
inductive Fault
  | null_deref
  | out_of_store
  | no_return
  deriving DecidableEq, Repr

/-- Modelled from the spec: `sgn` is used by `test` but defined outside the sources; the
spec says "sign of zero is treated as non-negative".  Used only to instantiate the
parameter `sgn` of `test` at concrete inputs. -/
def sgn (x : Int) : Int :=
  if x < 0 then -1 else 1

/-- The state transition of `test` (ui.c lines 301-307); the diagnostic loop before it
(lines 290-298) only prints.

```
enemy_t* e = GS->formations[0].ranks[0].occupied_by;
e->ai_mode = FREE;
if (sgn(e->velocity.x) == sgn(e->formation->velocity.x)) {
        e->velocity.x *= (-1);
}
```
-/
def test (sgn : Int → Int) (GS : game_state_t) : Except Fault game_state_t :=
  match GS.formations[0]? with
  | none => .error .out_of_store
  | some f0 =>
    match f0.ranks[0]? with
    | none => .error .out_of_store
    | some r0 =>
      match r0.occupied_by with
      | none => .error .null_deref
      | some e =>
        match GS.enemies[e]? with
        | none => .error .out_of_store
        | some en =>
          let en1 : enemy_t := { en with ai_mode := ai_mode_t.FREE }
          match en1.formation with
          | none => .error .null_deref
          | some fi =>
            match GS.formations[fi]? with
            | none => .error .out_of_store
            | some ef =>
              let en2 : enemy_t :=
                if sgn en1.velocity.x = sgn ef.velocity.x then
                  { en1 with velocity := { en1.velocity with x := en1.velocity.x * (-1) } }
                else en1
              .ok { GS with enemies := GS.enemies.set e en2 }

/-- The occupant of rank 0 of formation 0, `GS->formations[0].ranks[0].occupied_by`. -/
def slot00 (GS : game_state_t) : Option Nat :=
  match GS.formations[0]? with
  | none => none
  | some f0 =>
    match f0.ranks[0]? with
    | none => none
    | some r0 => r0.occupied_by

/-- Rank 0 of formation 0 is occupied by the enemy stored at `e`, whose record is `en`
and whose `formation` pointer refers to the formation `ef`. -/
def Occupant (GS : game_state_t) (e : Nat) (en : enemy_t) (ef : formation_t) : Prop :=
  ∃ f0 r0 fi, GS.formations[0]? = some f0 ∧ f0.ranks[0]? = some r0 ∧
    r0.occupied_by = some e ∧ GS.enemies[e]? = some en ∧
    en.formation = some fi ∧ GS.formations[fi]? = some ef

/-- The record `test` writes back for the occupant `en` of a formation `ef`. -/
def after_breakout (sgn : Int → Int) (en : enemy_t) (ef : formation_t) : enemy_t :=
  if sgn en.velocity.x = sgn ef.velocity.x then
    { ai_mode := ai_mode_t.FREE, velocity := { x := en.velocity.x * (-1), y := en.velocity.y },
      formation := en.formation }
  else
    { ai_mode := ai_mode_t.FREE, velocity := en.velocity, formation := en.formation }

/-! ### Concrete game states -/

/-- One formation drifting with `velocity.x = 2`, its rank 0 occupied by enemy 0. -/
def formation_right (occ : Option Nat) : formation_t :=
  { ranks := [{ occupied_by := occ, fillfrom_index := [] }], velocity := { x := 2, y := 0 } }

/-- A formation-bound enemy of formation 0 with horizontal velocity `vx`. -/
def enemy_with (m : ai_mode_t) (vx : Int) : enemy_t :=
  { ai_mode := m, velocity := { x := vx, y := 0 }, formation := some 0 }

/-- Game state: enemy 0 (mode `m`, `velocity.x = vx`) occupies rank 0 of formation 0,
enemy 1 is a destroyed enemy outside the slot. -/
def GS_occupied (m : ai_mode_t) (vx : Int) : game_state_t :=
  { formations := [formation_right (some 0)],
    enemies := [enemy_with m vx, enemy_with ai_mode_t.DESTROYED 5] }

/-- Game state: rank 0 of formation 0 is unoccupied; enemy 0 flies free. -/
def GS_empty_slot : game_state_t :=
  { formations := [formation_right none],
    enemies := [{ ai_mode := ai_mode_t.FREE, velocity := { x := 3, y := 0 }, formation := none }] }

/-! ## Program state, calls leaving `ui.c`, and the environment -/

/-- Movement directions passed to `start_move` / `stop_move`. -/
inductive direction_t
  | LEFT
  | RIGHT
  | FORWARD
  | BACK
  deriving DecidableEq, Repr

/-- Weapons passed to `start_fire` / `continue_fire`. -/
inductive weapon_t
  | WEAPON_LASER_1
  | WEAPON_LASER_2
  | WEAPON_ROUNDSHOT
  deriving DecidableEq, Repr

/-- Fire modes passed to `start_fire` / `start_round_shot`. -/
inductive fire_mode_t
  | FM_SINGLE
  deriving DecidableEq, Repr

/-- The messages `ui.c` hands to `error_quit`. -/
inductive quit_message
  | open_audio_failed
  | sound_not_loaded
  | music_not_loaded
  | resize_video_mode_null
  | user_abort_F12
  deriving DecidableEq, Repr

/-- A call from `ui.c` to a function it does not define: first those of the repository
(they receive `PS` and/or `GS`, or end the program), then those of SDL / SDL_mixer.
`toggle_full_screen` is listed with them: its body in `ui.c` is compiled only under
`FULLSCREEN_WORKS_WITH_OPENGL`, which the sources do not define. -/
inductive Call
  | start_move (d : direction_t)
  | stop_move (d : direction_t)
  | remove_all_objects
  | reset_game
  | start_fire (wp : weapon_t) (m : fire_mode_t)
  | start_round_shot (m : fire_mode_t)
  | continue_fire (wp : weapon_t)
  | toggle_pause
  | toggle_full_screen
  | error_quit (msg : quit_message)
  | Mix_Volume (channel : Int) (volume : Int)
  | Mix_VolumeMusic (volume : Int)
  | Mix_ResumeMusic
  | Mix_PauseMusic
  | SDL_ShowCursor (enable : Bool)
  | SDL_SetVideoMode (width : Int) (height : Int)
  deriving DecidableEq, Repr

/-- The struct `PS->mouse`. -/
structure mouse_t where
  x : Int
  y : Int
  previous_x : Int
  previous_y : Int
  visible_until_us : Int
  button_left : Bool
  button_right : Bool
  deriving DecidableEq, Repr

/-- The fields of `program_state_t` that the modelled functions access.  `screen` is the
surface handle returned by `SDL_SetVideoMode` (`none` for `NULL`). -/
structure program_state_t where
  run_mode : Int
  debug : Bool
  volume_fx : Int
  volume_music : Int
  window_width : Int
  window_height : Int
  screen : Option Nat
  mouse : mouse_t
  deriving DecidableEq, Repr

/-- Constants and compile-time switches that `ui.c` uses but that are declared in
headers outside the sources, and the function `sgn`. -/
structure Config where
  RM_RUNNING : Int
  RM_PAUSE : Int
  RM_EXIT : Int
  RM_INTRO : Int
  RM_MAIN_MENU : Int
  RM_AFTER_LIFE : Int
  DEBUG : Bool
  PLAY_SOUNDS : Bool
  PLAY_MUSIC : Bool
  MIX_MAX_VOLUME : Int
  VOLUME_STEPS : Int
  VOLUME_FX : Int
  VOLUME_MUSIC : Int
  VOLUME_ALL : Int
  MOUSE_CURSOR_VISIBLE_US : Int
  sgn : Int → Int

/-- What the world outside `ui.c` does: `ext c PS GS` is the state a repository function
called as `c` leaves behind (`none` when the call does not return, as `error_quit`
may), and the two library queries answer as a function of the calls made so far. -/
structure Env where
  ext : Call → program_state_t → game_state_t → Option (program_state_t × game_state_t)
  Mix_PausedMusic : List Call → Int
  SDL_SetVideoMode : List Call → Option Nat

/-- Program state, game state and the calls made so far. -/
structure World where
  PS : program_state_t
  GS : game_state_t
  trace : List Call
  deriving DecidableEq, Repr

/-- Outcome of running a function of `ui.c`: the world it returns with, or the fault that
stopped it together with the calls made up to then. -/
abbrev Run := Except (Fault × List Call) World

/-- The calls recorded by a run, whether it returned or stopped. -/
def Run.calls : Run → List Call
  | .ok w => w.trace
  | .error (_, t) => t

/-- A library call: recorded, no effect on `PS` / `GS`. -/
def lib (c : Call) (w : World) : World :=
  { w with trace := w.trace ++ [c] }

/-- A call to a repository function outside `ui.c`: recorded, effect given by `E.ext`. -/
def call (E : Env) (c : Call) (w : World) : Run :=
  match E.ext c w.PS w.GS with
  | none => .error (Fault.no_return, w.trace ++ [c])
  | some (p, g) => .ok { PS := p, GS := g, trace := w.trace ++ [c] }

/-! ### SDL 1.2 constants (`SDL_keysym.h`, `SDL_mouse.h`) -/

def SDLK_RETURN : Int := 13
def SDLK_PAUSE : Int := 19
def SDLK_ESCAPE : Int := 27
def SDLK_PLUS : Int := 43
def SDLK_COMMA : Int := 44
def SDLK_MINUS : Int := 45
def SDLK_PERIOD : Int := 46
def SDLK_a : Int := 97
def SDLK_d : Int := 100
def SDLK_k : Int := 107
def SDLK_m : Int := 109
def SDLK_p : Int := 112
def SDLK_r : Int := 114
def SDLK_s : Int := 115
def SDLK_t : Int := 116
def SDLK_w : Int := 119
def SDLK_KP_DIVIDE : Int := 267
def SDLK_KP_MULTIPLY : Int := 268
def SDLK_KP_MINUS : Int := 269
def SDLK_KP_PLUS : Int := 270
def SDLK_UP : Int := 273
def SDLK_DOWN : Int := 274
def SDLK_RIGHT : Int := 275
def SDLK_LEFT : Int := 276
def SDLK_F3 : Int := 284
def SDLK_F11 : Int := 292
def SDLK_F12 : Int := 293
def SDLK_RSHIFT : Int := 303
def SDLK_LSHIFT : Int := 304
def SDLK_RCTRL : Int := 305
def SDLK_LCTRL : Int := 306
def SDLK_RALT : Int := 307
def SDLK_LALT : Int := 308
def SDLK_LSUPER : Int := 311
def SDL_BUTTON_LEFT : Int := 1
def SDL_BUTTON_RIGHT : Int := 3
def SDL_BUTTON_WHEELUP : Int := 4
def SDL_BUTTON_WHEELDOWN : Int := 5

/-! ## `level_design.h` -/

/-- Modelled from the spec: the C truth value `FALSE` (declared in `main.h`, which is not
among the sources), the value a disabled ("off") option has. -/
def FALSE : Int := 0

/-- The option of `level_design.h` line 15: `#define WARP_AROUND_SPAWNS_ENEMY FALSE`. -/
def WARP_AROUND_SPAWNS_ENEMY : Int := FALSE

/-- Whether `#if X` / `if (X)` takes its branch. -/
def c_enabled (x : Int) : Bool :=
  x != 0

/-! ## Sound -/

/-- Results of the SDL_mixer calls made by `init_sound`: whether `Mix_OpenAudio` returned
`-1`, and whether each loaded chunk / the music is non-`NULL`. -/
structure audio_init_t where
  open_audio_failed : Bool
  laser : Bool
  hit : Bool
  punch : Bool
  blast : Bool
  denied : Bool
  alarm : Bool
  music : Bool

/-- The first part of `init_sound` (ui.c lines 57-94): opening the audio device and
loading the sounds and the music, with `error_quit` on each failure. -/
def init_sound_load (C : Config) (E : Env) (A : audio_init_t) (w : World) : Run := do
  let w1 ←
    if C.PLAY_SOUNDS then do
      let wa ←
        if A.open_audio_failed then call E (.error_quit .open_audio_failed) w else pure w
      if !A.laser || !A.hit || !A.punch || !A.blast || !A.denied || !A.alarm then
        call E (.error_quit .sound_not_loaded) wa
      else pure wa
    else pure w
  if C.PLAY_MUSIC then
    if !A.music then call E (.error_quit .music_not_loaded) w1 else pure w1
  else pure w1

/-- The second part of `init_sound` (ui.c lines 96-102): both volumes are set to
`MIX_MAX_VOLUME / 2` and handed to the mixer. -/
def init_sound_volumes (C : Config) (w : World) : World :=
  let w3 : World :=
    { w with PS := { w.PS with volume_fx := Int.tdiv C.MIX_MAX_VOLUME 2,
                                volume_music := Int.tdiv C.MIX_MAX_VOLUME 2 } }
  if C.PLAY_SOUNDS || C.PLAY_MUSIC then
    lib (.Mix_VolumeMusic w3.PS.volume_music) (lib (.Mix_Volume (-1) w3.PS.volume_fx) w3)
  else w3

/-- Function `init_sound` (ui.c lines 55-103). -/
def init_sound (C : Config) (E : Env) (A : audio_init_t) (w : World) : Run :=
  match init_sound_load C E A w with
  | .error f => .error f
  | .ok w2 => .ok (init_sound_volumes C w2)

/-- All audio resources opened and loaded. -/
def audio_ok : audio_init_t :=
  { open_audio_failed := false, laser := true, hit := true, punch := true, blast := true,
    denied := true, alarm := true, music := true }

/-- Function `toggle_music` (ui.c lines 142-150). -/
def toggle_music (E : Env) (w : World) : World :=
  if E.Mix_PausedMusic w.trace = 1 then lib .Mix_ResumeMusic w else lib .Mix_PauseMusic w

/-- Function `volume_up` (ui.c lines 152-168). -/
def volume_up (C : Config) (w : World) (channel : Int) : World :=
  let w1 : World :=
    if Int.land channel C.VOLUME_FX ≠ 0 then
      let v := w.PS.volume_fx + C.VOLUME_STEPS
      let v1 := if v > C.MIX_MAX_VOLUME then C.MIX_MAX_VOLUME else v
      lib (.Mix_Volume (-1) v1) { w with PS := { w.PS with volume_fx := v1 } }
    else w
  if Int.land channel C.VOLUME_MUSIC ≠ 0 then
    let v := w1.PS.volume_music + C.VOLUME_STEPS
    let v1 := if v > C.MIX_MAX_VOLUME then C.MIX_MAX_VOLUME else v
    lib (.Mix_VolumeMusic v1) { w1 with PS := { w1.PS with volume_music := v1 } }
  else w1

/-- Function `volume_down` (ui.c lines 170-187). -/
def volume_down (C : Config) (w : World) (channel : Int) : World :=
  let w1 : World :=
    if Int.land channel C.VOLUME_FX ≠ 0 then
      let v := w.PS.volume_fx - C.VOLUME_STEPS
      let v1 := if v < 0 then 0 else v
      lib (.Mix_Volume (-1) v1) { w with PS := { w.PS with volume_fx := v1 } }
    else w
  if Int.land channel C.VOLUME_MUSIC ≠ 0 then
    let v := w1.PS.volume_music - C.VOLUME_STEPS
    let v1 := if v < 0 then 0 else v
    lib (.Mix_VolumeMusic v1) { w1 with PS := { w1.PS with volume_music := v1 } }
  else w1

/-- Both volumes lie in `[0, MIX_MAX_VOLUME]`. -/
def VolumesInRange (C : Config) (PS : program_state_t) : Prop :=
  (0 ≤ PS.volume_fx ∧ PS.volume_fx ≤ C.MIX_MAX_VOLUME) ∧
  (0 ≤ PS.volume_music ∧ PS.volume_music ≤ C.MIX_MAX_VOLUME)

/-! ## UI events -/

/-- Function `show_cursor` (ui.c lines 200-210; the `DISABLED_CODE` part is not compiled). -/
def show_cursor (w : World) : World :=
  lib (.SDL_ShowCursor true) w

/-- Function `hide_cursor` (ui.c lines 189-198). -/
def hide_cursor (w : World) : World :=
  lib (.SDL_ShowCursor false) w

/-- Function `do_QUIT` (ui.c lines 217-219). -/
def do_QUIT (C : Config) (w : World) : World :=
  { w with PS := { w.PS with run_mode := C.RM_EXIT } }

/-- Function `do_RESIZE` (ui.c lines 221-247); the `printf` is output only. -/
def do_RESIZE (E : Env) (w : World) : Run :=
  let w1 := lib (.SDL_SetVideoMode w.PS.window_width w.PS.window_height) w
  let w2 : World := { w1 with PS := { w1.PS with screen := E.SDL_SetVideoMode w.trace } }
  if w2.PS.screen = none then call E (.error_quit .resize_video_mode_null) w2 else .ok w2

/-- The call `test( PS, GS )` made by `handle_keydown`: `test` works on `GS` only. -/
def run_test (C : Config) (w : World) : Run :=
  match test C.sgn w.GS with
  | .error f => .error (f, w.trace)
  | .ok g => .ok { w with GS := g }

/-- Function `handle_keydown` (ui.c lines 311-380).  The `case` labels of the `switch` are
pairwise different constants, so the chain of tests below selects the same branch. -/
def handle_keydown (C : Config) (E : Env) (w : World) (ksym : Int) : Run :=
  if ksym = SDLK_a ∨ ksym = SDLK_LEFT then call E (.start_move .LEFT) w
  else if ksym = SDLK_d ∨ ksym = SDLK_RIGHT then call E (.start_move .RIGHT) w
  else if ksym = SDLK_w ∨ ksym = SDLK_UP then call E (.start_move .FORWARD) w
  else if ksym = SDLK_s ∨ ksym = SDLK_DOWN then call E (.start_move .BACK) w
  else if C.DEBUG = true ∧ ksym = SDLK_k then call E .remove_all_objects w
  else if ksym = SDLK_m then .ok (toggle_music E w)
  else if ksym = SDLK_r then call E .reset_game w
  else if ksym = SDLK_t then run_test C w
  else if ksym = SDLK_PLUS then .ok (volume_up C w C.VOLUME_ALL)
  else if ksym = SDLK_MINUS then .ok (volume_down C w C.VOLUME_ALL)
  else if ksym = SDLK_KP_PLUS then .ok (volume_up C w C.VOLUME_FX)
  else if ksym = SDLK_KP_MINUS then .ok (volume_down C w C.VOLUME_FX)
  else if ksym = SDLK_KP_MULTIPLY then .ok (volume_up C w C.VOLUME_MUSIC)
  else if ksym = SDLK_KP_DIVIDE then .ok (volume_down C w C.VOLUME_MUSIC)
  else if ksym = SDLK_COMMA ∨ ksym = SDLK_RCTRL ∨ ksym = SDLK_LCTRL then
    if w.PS.run_mode = C.RM_RUNNING then
      call E (.start_fire .WEAPON_LASER_1 .FM_SINGLE) w
    else .ok w
  else if ksym = SDLK_PERIOD ∨ ksym = SDLK_RSHIFT ∨ ksym = SDLK_LSHIFT
      ∨ ksym = SDLK_LSUPER then
    if w.PS.run_mode = C.RM_RUNNING then
      call E (.start_fire .WEAPON_LASER_2 .FM_SINGLE) w
    else .ok w
  else if ksym = SDLK_RALT ∨ ksym = SDLK_LALT then
    if w.PS.run_mode = C.RM_RUNNING then
      call E (.start_round_shot .FM_SINGLE) w
    else .ok w
  else if ksym = SDLK_RETURN then
    if Int.land w.PS.run_mode (Int.lor (Int.lor C.RM_INTRO C.RM_MAIN_MENU) C.RM_AFTER_LIFE) ≠ 0
    then call E .reset_game w
    else call E .toggle_pause w
  else if ksym = SDLK_ESCAPE then
    let w1 :=
      if w.PS.run_mode = C.RM_INTRO ∨ w.PS.run_mode = C.RM_PAUSE
          ∨ w.PS.run_mode = C.RM_MAIN_MENU then do_QUIT C w
      else w
    call E .toggle_pause w1
  else if ksym = SDLK_p ∨ ksym = SDLK_PAUSE then call E .toggle_pause w
  else if ksym = SDLK_F3 then .ok { w with PS := { w.PS with debug := !w.PS.debug } }
  else if ksym = SDLK_F11 then call E .toggle_full_screen w
  else if ksym = SDLK_F12 then call E (.error_quit .user_abort_F12) w
  else .ok w

/-- Function `handle_keyup` (ui.c lines 382-394). -/
def handle_keyup (E : Env) (w : World) (ksym : Int) : Run :=
  if ksym = SDLK_a ∨ ksym = SDLK_LEFT then call E (.stop_move .LEFT) w
  else if ksym = SDLK_d ∨ ksym = SDLK_RIGHT then call E (.stop_move .RIGHT) w
  else if ksym = SDLK_w ∨ ksym = SDLK_UP then call E (.stop_move .FORWARD) w
  else if ksym = SDLK_s ∨ ksym = SDLK_DOWN then call E (.stop_move .BACK) w
  else .ok w

/-- The direction a movement key stands for (`a`/`d`/`w`/`s` and the arrow keys), as the
`case` labels of `handle_keydown` and `handle_keyup` group them. -/
def move_key (ksym : Int) : Option direction_t :=
  if ksym = SDLK_a ∨ ksym = SDLK_LEFT then some .LEFT
  else if ksym = SDLK_d ∨ ksym = SDLK_RIGHT then some .RIGHT
  else if ksym = SDLK_w ∨ ksym = SDLK_UP then some .FORWARD
  else if ksym = SDLK_s ∨ ksym = SDLK_DOWN then some .BACK
  else none

/-- Function `handle_mouse` (ui.c lines 396-417); `T` is the value of `get_time()`,
`mx`, `my` what `SDL_GetMouseState` stores. -/
def handle_mouse (C : Config) (T mx my : Int) (w : World) : World :=
  let m0 : mouse_t := { w.PS.mouse with x := mx, y := my }
  let w0 : World := { w with PS := { w.PS with mouse := m0 } }
  let w1 : World :=
    if |m0.x - m0.previous_x| > 3 ∧ |m0.y - m0.previous_y| > 3 then
      let ws := show_cursor w0
      { ws with PS := { ws.PS with mouse :=
          { ws.PS.mouse with visible_until_us := T + C.MOUSE_CURSOR_VISIBLE_US } } }
    else if T > m0.visible_until_us then hide_cursor w0
    else w0
  { w1 with PS := { w1.PS with mouse :=
      { w1.PS.mouse with previous_x := w1.PS.mouse.x, previous_y := w1.PS.mouse.y } } }

/-- An `SDL_Event`, by its `type` tag, with the fields `process_event_queue` reads. -/
inductive SDL_Event
  | VIDEORESIZE (w : Int) (h : Int)
  | ACTIVEEVENT (gain : Int)
  | KEYDOWN (sym : Int)
  | KEYUP (sym : Int)
  | MOUSEBUTTONDOWN (button : Int)
  | MOUSEBUTTONUP (button : Int)
  | QUIT
  | OTHER
  deriving DecidableEq, Repr

/-- The body of the `switch (event.type)` in `process_event_queue` (ui.c lines 455-516). -/
def process_event (C : Config) (E : Env) (w : World) : SDL_Event → Run
  | .VIDEORESIZE rw rh =>
    do_RESIZE E { w with PS := { w.PS with window_width := rw, window_height := rh } }
  | .ACTIVEEVENT gain =>
    if gain ≠ 1 ∧ w.PS.run_mode = C.RM_RUNNING then
      .ok { w with PS := { w.PS with run_mode := C.RM_PAUSE } }
    else .ok w
  | .KEYDOWN sym => handle_keydown C E w sym
  | .KEYUP sym => handle_keyup E w sym
  | .MOUSEBUTTONDOWN button =>
    if button = SDL_BUTTON_LEFT then
      .ok { w with PS := { w.PS with mouse := { w.PS.mouse with button_left := true } } }
    else if button = SDL_BUTTON_RIGHT then
      .ok { w with PS := { w.PS with mouse := { w.PS.mouse with button_right := true } } }
    else .ok w
  | .MOUSEBUTTONUP button =>
    if button = SDL_BUTTON_LEFT then
      .ok { w with PS := { w.PS with mouse := { w.PS.mouse with button_left := false } } }
    else if button = SDL_BUTTON_RIGHT then
      .ok { w with PS := { w.PS with mouse := { w.PS.mouse with button_right := false } } }
    else .ok w
  | .QUIT => .ok (do_QUIT C w)
  | .OTHER => .ok w

/-- The auto-fire section of `process_event_queue` (ui.c lines 427-450); `keystates` is
the array returned by `SDL_GetKeyState`. -/
def auto_fire (C : Config) (E : Env) (keystates : Int → Nat) (w : World) : Run :=
  if w.PS.run_mode = C.RM_RUNNING then do
    let w1 ←
      if keystates SDLK_LCTRL ≠ 0 ∨ keystates SDLK_RCTRL ≠ 0 ∨ keystates SDLK_COMMA ≠ 0 then
        call E (.continue_fire .WEAPON_LASER_1) w
      else pure w
    let w2 ←
      if keystates SDLK_LSHIFT ≠ 0 ∨ keystates SDLK_LSUPER ≠ 0 ∨ keystates SDLK_RSHIFT ≠ 0
          ∨ keystates SDLK_RALT ≠ 0 then
        call E (.continue_fire .WEAPON_LASER_2) w1
      else pure w1
    if keystates SDLK_LALT ≠ 0 ∨ keystates SDLK_RALT ≠ 0 then
      call E (.continue_fire .WEAPON_ROUNDSHOT) w2
    else pure w2
  else .ok w

/-- The `while (SDL_PollEvent(&event))` loop over the pending events. -/
def process_events (C : Config) (E : Env) : World → List SDL_Event → Run
  | w, [] => .ok w
  | w, ev :: rest =>
    match process_event C E w ev with
    | .error f => .error f
    | .ok w1 => process_events C E w1 rest

/-- Function `process_event_queue` (ui.c lines 419-518): `keystates`, `T`, `mx`, `my` and
`events` are what SDL and `get_time` deliver during the call. -/
def process_event_queue (C : Config) (E : Env) (keystates : Int → Nat) (T mx my : Int)
    (events : List SDL_Event) (w : World) : Run :=
  match auto_fire C E keystates (handle_mouse C T mx my w) with
  | .error f => .error f
  | .ok w1 => process_events C E w1 events

/-- Whether a call is one of the fire actions started by a key press. -/
def Call.is_start_fire : Call → Bool
  | .start_fire _ _ => true
  | .start_round_shot _ => true
  | _ => false

/-- Whether a call is a `continue_fire`. -/
def Call.is_continue_fire : Call → Bool
  | .continue_fire _ => true
  | _ => false

/-- The run `r`, started with the calls `t0` already made, adds only calls that are
not fire actions started by a key press. -/
def StartsNoFire (t0 : List Call) (r : Run) : Prop :=
  ∃ l, r.calls = t0 ++ l ∧ ∀ c ∈ l, Call.is_start_fire c = false

/-! ### Concrete configuration, environment and worlds -/

/-- Example values for the constants: run modes as distinct bit flags, SDL_mixer's
`MIX_MAX_VOLUME = 128`, channel masks 1 and 2. -/
def C0 : Config :=
  { RM_INTRO := 1, RM_MAIN_MENU := 2, RM_RUNNING := 4, RM_PAUSE := 8, RM_AFTER_LIFE := 16,
    RM_EXIT := 32, DEBUG := false, PLAY_SOUNDS := true, PLAY_MUSIC := true,
    MIX_MAX_VOLUME := 128, VOLUME_STEPS := 8, VOLUME_FX := 1, VOLUME_MUSIC := 2,
    VOLUME_ALL := 3, MOUSE_CURSOR_VISIBLE_US := 1000000, sgn := sgn }

/-- An environment in which every outside function returns and leaves the state as it is. -/
def E0 : Env :=
  { ext := fun _ p g => some (p, g),
    Mix_PausedMusic := fun _ => 0,
    SDL_SetVideoMode := fun _ => some 1 }

/-- A program state in run mode `rm` with both volumes at 64. -/
def PS_in (rm : Int) : program_state_t :=
  { run_mode := rm, debug := false, volume_fx := 64, volume_music := 64,
    window_width := 800, window_height := 600, screen := some 1,
    mouse := { x := 0, y := 0, previous_x := 0, previous_y := 0, visible_until_us := 0,
               button_left := false, button_right := false } }

/-- A world in run mode `rm` with an occupied formation slot and an empty trace. -/
def W_in (rm : Int) : World :=
  { PS := PS_in rm, GS := GS_occupied ai_mode_t.FORMATION 3, trace := [] }

/-- Key states with exactly the key `k` held down. -/
def only_key (k : Int) : Int → Nat :=
  fun i => if i = k then 1 else 0

/-! ## Shared lemmas on `test` -/

theorem test_of_occupant (sgn : Int → Int) (GS : game_state_t) (e : Nat) (en : enemy_t)
    (ef : formation_t) (h : Occupant GS e en ef) :
    test sgn GS = .ok { GS with enemies := GS.enemies.set e (after_breakout sgn en ef) } := by
  obtain ⟨f0, r0, fi, h0, h1, h2, h3, h4, h5⟩ := h
  simp only [test, h0, h1, h2, h3, h4, h5, after_breakout]

theorem occupant_index_lt (GS : game_state_t) (e : Nat) (en : enemy_t) (ef : formation_t)
    (h : Occupant GS e en ef) : e < GS.enemies.length := by
  obtain ⟨_, _, _, _, _, _, h3, _, _⟩ := h
  exact (List.getElem?_eq_some.mp h3).1

theorem occupant_slot00 (GS : game_state_t) (e : Nat) (en : enemy_t) (ef : formation_t)
    (h : Occupant GS e en ef) : slot00 GS = some e := by
  obtain ⟨f0, r0, fi, h0, h1, h2, _, _, _⟩ := h
  simp [slot00, h0, h1, h2]

theorem occupant_GS_occupied (m : ai_mode_t) (vx : Int) :
    Occupant (GS_occupied m vx) 0 (enemy_with m vx) (formation_right (some 0)) :=
  ⟨formation_right (some 0), { occupied_by := some 0, fillfrom_index := [] }, 0,
    rfl, rfl, rfl, rfl, rfl, rfl⟩

theorem test_null_occupant (sgn : Int → Int) (GS : game_state_t) (f0 : formation_t)
    (r0 : rank_t) (h0 : GS.formations[0]? = some f0) (h1 : f0.ranks[0]? = some r0)
    (h2 : r0.occupied_by = none) : test sgn GS = .error Fault.null_deref := by
  simp only [test, h0, h1, h2]

theorem calls_call (E : Env) (c : Call) (w : World) :
    (call E c w).calls = w.trace ++ [c] := by
  unfold call
  cases E.ext c w.PS w.GS with
  | none => rfl
  | some r => rfl

theorem move_key_cases (ksym : Int) (d : direction_t) (h : move_key ksym = some d) :
    ((ksym = SDLK_a ∨ ksym = SDLK_LEFT) ∧ d = .LEFT) ∨
    ((ksym = SDLK_d ∨ ksym = SDLK_RIGHT) ∧ d = .RIGHT) ∨
    ((ksym = SDLK_w ∨ ksym = SDLK_UP) ∧ d = .FORWARD) ∨
    ((ksym = SDLK_s ∨ ksym = SDLK_DOWN) ∧ d = .BACK) := by
  unfold move_key at h
  split_ifs at h with h1 h2 h3 h4
  · left; exact ⟨h1, by cases h; rfl⟩
  · right; left; exact ⟨h2, by cases h; rfl⟩
  · right; right; left; exact ⟨h3, by cases h; rfl⟩
  · right; right; right; exact ⟨h4, by cases h; rfl⟩

theorem init_sound_sets_volumes (C : Config) (E : Env) (A : audio_init_t) (w0 w1 : World)
    (h : init_sound C E A w0 = .ok w1) :
    w1.PS.volume_fx = Int.tdiv C.MIX_MAX_VOLUME 2 ∧
      w1.PS.volume_music = Int.tdiv C.MIX_MAX_VOLUME 2 := by
  unfold init_sound at h
  split at h
  · cases h
  · cases h
    unfold init_sound_volumes lib
    split_ifs <;> exact ⟨rfl, rfl⟩

theorem init_sound_returns (C : Config) (E : Env) (w0 : World) :
    ∃ w1, init_sound C E audio_ok w0 = .ok w1 := by
  have h : init_sound_load C E audio_ok w0 = .ok w0 := by
    unfold init_sound_load
    cases C.PLAY_SOUNDS <;> cases C.PLAY_MUSIC <;> rfl
  exact ⟨init_sound_volumes C w0, by unfold init_sound; rw [h]⟩

theorem volume_up_fx (C : Config) (w : World) (channel : Int) :
    (volume_up C w channel).PS.volume_fx
      = if Int.land channel C.VOLUME_FX ≠ 0 then
          min (w.PS.volume_fx + C.VOLUME_STEPS) C.MIX_MAX_VOLUME
        else w.PS.volume_fx := by
  unfold volume_up lib
  split_ifs <;> simp_all [min_def] <;> omega

theorem volume_up_music (C : Config) (w : World) (channel : Int) :
    (volume_up C w channel).PS.volume_music
      = if Int.land channel C.VOLUME_MUSIC ≠ 0 then
          min (w.PS.volume_music + C.VOLUME_STEPS) C.MIX_MAX_VOLUME
        else w.PS.volume_music := by
  unfold volume_up lib
  split_ifs <;> simp_all [min_def] <;> omega

theorem volume_down_fx (C : Config) (w : World) (channel : Int) :
    (volume_down C w channel).PS.volume_fx
      = if Int.land channel C.VOLUME_FX ≠ 0 then max (w.PS.volume_fx - C.VOLUME_STEPS) 0
        else w.PS.volume_fx := by
  unfold volume_down lib
  split_ifs <;> simp_all [max_def] <;> omega

theorem volume_down_music (C : Config) (w : World) (channel : Int) :
    (volume_down C w channel).PS.volume_music
      = if Int.land channel C.VOLUME_MUSIC ≠ 0 then
          max (w.PS.volume_music - C.VOLUME_STEPS) 0
        else w.PS.volume_music := by
  unfold volume_down lib
  split_ifs <;> simp_all [max_def] <;> omega

theorem starts_no_fire_call (E : Env) (c : Call) (w : World)
    (hc : Call.is_start_fire c = false) : StartsNoFire w.trace (call E c w) :=
  ⟨[c], calls_call E c w, by simpa using hc⟩

theorem starts_no_fire_ok (w : World) : StartsNoFire w.trace (.ok w) :=
  ⟨[], by simp [Run.calls], by simp⟩

theorem starts_no_fire_world (w w1 : World)
    (h : ∃ l, w1.trace = w.trace ++ l ∧ ∀ c ∈ l, Call.is_start_fire c = false) :
    StartsNoFire w.trace (.ok w1) := by
  obtain ⟨l, h1, h2⟩ := h
  exact ⟨l, h1, h2⟩

theorem starts_no_fire_run_test (C : Config) (w : World) :
    StartsNoFire w.trace (run_test C w) := by
  unfold run_test
  split
  · exact ⟨[], by simp [Run.calls], by simp⟩
  · exact ⟨[], by simp [Run.calls], by simp⟩

theorem volume_up_trace (C : Config) (w : World) (channel : Int) :
    ∃ l, (volume_up C w channel).trace = w.trace ++ l ∧
      ∀ c ∈ l, Call.is_start_fire c = false := by
  unfold volume_up lib
  split_ifs
  · refine ⟨_, List.append_assoc _ _ _, ?_⟩
    intro c hc
    simp only [List.append_eq, List.mem_append, List.mem_singleton] at hc
    rcases hc with rfl | rfl <;> rfl
  · refine ⟨_, rfl, ?_⟩
    intro c hc
    simp only [List.mem_singleton] at hc
    subst hc
    rfl
  · refine ⟨_, rfl, ?_⟩
    intro c hc
    simp only [List.mem_singleton] at hc
    subst hc
    rfl
  · exact ⟨[], (List.append_nil _).symm, by simp⟩

theorem volume_down_trace (C : Config) (w : World) (channel : Int) :
    ∃ l, (volume_down C w channel).trace = w.trace ++ l ∧
      ∀ c ∈ l, Call.is_start_fire c = false := by
  unfold volume_down lib
  split_ifs
  · refine ⟨_, List.append_assoc _ _ _, ?_⟩
    intro c hc
    simp only [List.append_eq, List.mem_append, List.mem_singleton] at hc
    rcases hc with rfl | rfl <;> rfl
  · refine ⟨_, rfl, ?_⟩
    intro c hc
    simp only [List.mem_singleton] at hc
    subst hc
    rfl
  · refine ⟨_, rfl, ?_⟩
    intro c hc
    simp only [List.mem_singleton] at hc
    subst hc
    rfl
  · exact ⟨[], (List.append_nil _).symm, by simp⟩

theorem toggle_music_trace (E : Env) (w : World) :
    ∃ l, (toggle_music E w).trace = w.trace ++ l ∧
      ∀ c ∈ l, Call.is_start_fire c = false := by
  unfold toggle_music lib
  split_ifs
  · refine ⟨_, rfl, ?_⟩
    intro c hc
    simp only [List.mem_singleton] at hc
    subst hc
    rfl
  · refine ⟨_, rfl, ?_⟩
    intro c hc
    simp only [List.mem_singleton] at hc
    subst hc
    rfl

theorem starts_no_fire_ite (t : List Call) (c : Prop) [Decidable c] (a b : Run)
    (ha : StartsNoFire t a) (hb : StartsNoFire t b) : StartsNoFire t (if c then a else b) := by
  split_ifs
  · exact ha
  · exact hb

theorem starts_no_fire_ite_neg (t : List Call) (c : Prop) [Decidable c] (a b : Run)
    (hc : ¬ c) (hb : StartsNoFire t b) : StartsNoFire t (if c then a else b) := by
  rw [if_neg hc]
  exact hb

theorem starts_no_fire_call_from (E : Env) (c : Call) (w w1 : World)
    (ht : w1.trace = w.trace) (hc : Call.is_start_fire c = false) :
    StartsNoFire w.trace (call E c w1) := by
  rw [← ht]
  exact starts_no_fire_call E c w1 hc

/-! ## The breakout handler `test` -/

/-- Claim C1. Breakout velocity rule: when rank 0 of formation 0 is occupied by an enemy
`en` whose formation is `ef`, `test` returns, and the enemy's `velocity.x` afterwards is
the negation of the old one exactly when `sgn` of it equals `sgn` of the formation's
`velocity.x`, and is the old one otherwise (its `velocity.y` is kept either way).  In
particular, for a formation with `velocity.x = 2` and any `sgn` that gives 3 and 2 the
same sign and -3 and 2 different signs, 3 becomes -3 and -3 stays -3. -/
theorem C1_breakout_velocity_rule (sgn : Int → Int) (GS : game_state_t) (e : Nat)
    (en : enemy_t) (ef : formation_t) (h : Occupant GS e en ef) :
    ∃ GS1 en1, test sgn GS = .ok GS1 ∧ GS1.enemies[e]? = some en1 ∧
      en1.velocity.y = en.velocity.y ∧
      (sgn en.velocity.x = sgn ef.velocity.x → en1.velocity.x = -en.velocity.x) ∧
      (sgn en.velocity.x ≠ sgn ef.velocity.x → en1.velocity.x = en.velocity.x) ∧
      (sgn 3 = sgn 2 → ef.velocity.x = 2 → en.velocity.x = 3 → en1.velocity.x = -3) ∧
      (sgn (-3) ≠ sgn 2 → ef.velocity.x = 2 → en.velocity.x = -3 → en1.velocity.x = -3) := by
  have hflip : sgn en.velocity.x = sgn ef.velocity.x →
      (after_breakout sgn en ef).velocity.x = -en.velocity.x := by
    intro hs; simp [after_breakout, hs]
  have hkeep : sgn en.velocity.x ≠ sgn ef.velocity.x →
      (after_breakout sgn en ef).velocity.x = en.velocity.x := by
    intro hs; simp [after_breakout, hs]
  refine ⟨_, after_breakout sgn en ef, test_of_occupant sgn GS e en ef h,
    List.getElem?_set_self (occupant_index_lt GS e en ef h), ?_, hflip, hkeep, ?_, ?_⟩
  · unfold after_breakout; split <;> rfl
  · intro hs hf hv
    rw [hflip (by rw [hf, hv]; exact hs), hv]
  · intro hs hf hv
    rw [hkeep (by rw [hf, hv]; exact hs), hv]

/-- Witness for C1: formation `velocity.x = 2`, enemy `velocity.x = 3`, the sign function
with `sgn 0 = 1`. -/
theorem C1_breakout_velocity_rule_witness :
    Occupant (GS_occupied ai_mode_t.FORMATION 3) 0 (enemy_with ai_mode_t.FORMATION 3)
        (formation_right (some 0)) ∧
      ∃ GS1 en1, test sgn (GS_occupied ai_mode_t.FORMATION 3) = .ok GS1 ∧
        GS1.enemies[0]? = some en1 ∧
        en1.velocity.y = (enemy_with ai_mode_t.FORMATION 3).velocity.y ∧
        (sgn (enemy_with ai_mode_t.FORMATION 3).velocity.x
            = sgn (formation_right (some 0)).velocity.x →
          en1.velocity.x = -(enemy_with ai_mode_t.FORMATION 3).velocity.x) ∧
        (sgn (enemy_with ai_mode_t.FORMATION 3).velocity.x
            ≠ sgn (formation_right (some 0)).velocity.x →
          en1.velocity.x = (enemy_with ai_mode_t.FORMATION 3).velocity.x) ∧
        (sgn 3 = sgn 2 → (formation_right (some 0)).velocity.x = 2 →
          (enemy_with ai_mode_t.FORMATION 3).velocity.x = 3 → en1.velocity.x = -3) ∧
        (sgn (-3) ≠ sgn 2 → (formation_right (some 0)).velocity.x = 2 →
          (enemy_with ai_mode_t.FORMATION 3).velocity.x = -3 → en1.velocity.x = -3) :=
  ⟨occupant_GS_occupied ai_mode_t.FORMATION 3,
    C1_breakout_velocity_rule sgn (GS_occupied ai_mode_t.FORMATION 3) 0
      (enemy_with ai_mode_t.FORMATION 3) (formation_right (some 0))
      (occupant_GS_occupied ai_mode_t.FORMATION 3)⟩

/-- Counterexample to C2 as stated: enemy 0 occupies rank 0 of formation 0; `test`
returns with the enemy in mode `FREE` while the slot still refers to enemy 0. -/
theorem C2_slot_not_released :
    ∃ GS1 en1, test sgn (GS_occupied ai_mode_t.FORMATION 3) = .ok GS1 ∧
      GS1.enemies[0]? = some en1 ∧ en1.ai_mode = ai_mode_t.FREE ∧ slot00 GS1 = some 0 :=
  ⟨_, _, rfl, rfl, rfl, rfl⟩

/-- Claim C2, amended. When rank 0 of formation 0 is occupied by an enemy `e`, `test`
returns with `e` in mode `FREE` and with every formation, rank and slot as before: the
slot's `occupied_by` still refers to `e` (`test` releases no slot). -/
theorem C2_breakout_keeps_slot (sgn : Int → Int) (GS : game_state_t) (e : Nat)
    (en : enemy_t) (ef : formation_t) (h : Occupant GS e en ef) :
    ∃ GS1 en1, test sgn GS = .ok GS1 ∧ GS1.enemies[e]? = some en1 ∧
      en1.ai_mode = ai_mode_t.FREE ∧ GS1.formations = GS.formations ∧
      slot00 GS1 = some e := by
  refine ⟨_, after_breakout sgn en ef, test_of_occupant sgn GS e en ef h,
    List.getElem?_set_self (occupant_index_lt GS e en ef h), ?_, rfl, ?_⟩
  · unfold after_breakout; split <;> rfl
  · exact occupant_slot00 GS e en ef h

/-- Witness for the amended C2. -/
theorem C2_breakout_keeps_slot_witness :
    Occupant (GS_occupied ai_mode_t.FORMATION (-3)) 0 (enemy_with ai_mode_t.FORMATION (-3))
        (formation_right (some 0)) ∧
      ∃ GS1 en1, test sgn (GS_occupied ai_mode_t.FORMATION (-3)) = .ok GS1 ∧
        GS1.enemies[0]? = some en1 ∧ en1.ai_mode = ai_mode_t.FREE ∧
        GS1.formations = (GS_occupied ai_mode_t.FORMATION (-3)).formations ∧
        slot00 GS1 = some 0 :=
  ⟨occupant_GS_occupied ai_mode_t.FORMATION (-3),
    C2_breakout_keeps_slot sgn (GS_occupied ai_mode_t.FORMATION (-3)) 0
      (enemy_with ai_mode_t.FORMATION (-3)) (formation_right (some 0))
      (occupant_GS_occupied ai_mode_t.FORMATION (-3))⟩

/-- Claim C3. Zero-velocity breakout: when the occupant of rank 0 of formation 0 has
`velocity.x = 0`, then for every formation velocity and every `sgn`, `test` returns and
the enemy's velocity afterwards is the one before; `velocity.x` is still zero. -/
theorem C3_zero_velocity_unchanged (sgn : Int → Int) (GS : game_state_t) (e : Nat)
    (en : enemy_t) (ef : formation_t) (h : Occupant GS e en ef) (hz : en.velocity.x = 0) :
    ∃ GS1 en1, test sgn GS = .ok GS1 ∧ GS1.enemies[e]? = some en1 ∧
      en1.velocity.x = 0 ∧ en1.velocity = en.velocity := by
  have key : (after_breakout sgn en ef).velocity = en.velocity := by
    unfold after_breakout
    split
    · cases hv : en.velocity with
      | mk vx vy =>
        rw [hv] at hz
        simp only at hz
        simp [hz]
    · rfl
  exact ⟨_, after_breakout sgn en ef, test_of_occupant sgn GS e en ef h,
    List.getElem?_set_self (occupant_index_lt GS e en ef h), by rw [key, hz], key⟩

/-- Witness for C3: a stationary occupant under a formation with `velocity.x = 2`. -/
theorem C3_zero_velocity_unchanged_witness :
    Occupant (GS_occupied ai_mode_t.FORMATION 0) 0 (enemy_with ai_mode_t.FORMATION 0)
        (formation_right (some 0)) ∧
      (enemy_with ai_mode_t.FORMATION 0).velocity.x = 0 ∧
      ∃ GS1 en1, test sgn (GS_occupied ai_mode_t.FORMATION 0) = .ok GS1 ∧
        GS1.enemies[0]? = some en1 ∧ en1.velocity.x = 0 ∧
        en1.velocity = (enemy_with ai_mode_t.FORMATION 0).velocity :=
  ⟨occupant_GS_occupied ai_mode_t.FORMATION 0, rfl,
    C3_zero_velocity_unchanged sgn (GS_occupied ai_mode_t.FORMATION 0) 0
      (enemy_with ai_mode_t.FORMATION 0) (formation_right (some 0))
      (occupant_GS_occupied ai_mode_t.FORMATION 0) rfl⟩

/-- Claim C5, on the code: with rank 0 of formation 0 unoccupied, `test` dereferences
the `NULL` occupant (`e->ai_mode = FREE`) and does not return, whatever `sgn` is; the
same happens when `handle_keydown` receives the key `t`. -/
theorem C5_empty_slot_null_deref :
    slot00 GS_empty_slot = none ∧
      (∀ sgn : Int → Int, test sgn GS_empty_slot = .error Fault.null_deref) ∧
      handle_keydown C0 E0 { PS := PS_in C0.RM_RUNNING, GS := GS_empty_slot, trace := [] }
        SDLK_t = .error (Fault.null_deref, []) :=
  ⟨rfl, fun _ => rfl, rfl⟩

/-- Counterexample to C6 as stated: the occupant of rank 0 of formation 0 is in mode
`DESTROYED`; `test` returns with that enemy in mode `FREE`. -/
theorem C6_destroyed_occupant_freed :
    (GS_occupied ai_mode_t.DESTROYED 3).enemies[0]?
        = some (enemy_with ai_mode_t.DESTROYED 3) ∧
      (enemy_with ai_mode_t.DESTROYED 3).ai_mode = ai_mode_t.DESTROYED ∧
      ∃ GS1 en1, test sgn (GS_occupied ai_mode_t.DESTROYED 3) = .ok GS1 ∧
        GS1.enemies[0]? = some en1 ∧ en1.ai_mode = ai_mode_t.FREE :=
  ⟨rfl, rfl, _, _, rfl, rfl, rfl⟩

/-- Claim C6, amended. When rank 0 of formation 0 is occupied by `e`, `test` returns,
sets the mode of `e` to `FREE` whatever it was, and leaves every other enemy as it
was; so when the occupant is in mode `FORMATION`, every enemy in mode `DESTROYED`
keeps that mode. -/
theorem C6_mode_changes_only_for_occupant (sgn : Int → Int) (GS : game_state_t) (e : Nat)
    (en : enemy_t) (ef : formation_t) (h : Occupant GS e en ef) :
    ∃ GS1 en1, test sgn GS = .ok GS1 ∧ GS1.enemies[e]? = some en1 ∧
      en1.ai_mode = ai_mode_t.FREE ∧
      (∀ i : Nat, i ≠ e → GS1.enemies[i]? = GS.enemies[i]?) ∧
      (en.ai_mode = ai_mode_t.FORMATION → ∀ (i : Nat) (d : enemy_t), GS.enemies[i]? = some d →
        d.ai_mode = ai_mode_t.DESTROYED → GS1.enemies[i]? = some d) := by
  have hne : ∀ i : Nat, i ≠ e →
      (GS.enemies.set e (after_breakout sgn en ef))[i]? = GS.enemies[i]? :=
    fun i hi => List.getElem?_set_ne (Ne.symm hi)
  refine ⟨_, after_breakout sgn en ef, test_of_occupant sgn GS e en ef h,
    List.getElem?_set_self (occupant_index_lt GS e en ef h), ?_, hne, ?_⟩
  · unfold after_breakout; split <;> rfl
  · intro hm i d hi hd
    have hie : i ≠ e := by
      rintro rfl
      obtain ⟨_, _, _, _, _, _, h3, _, _⟩ := h
      rw [h3] at hi
      cases hi
      rw [hm] at hd
      cases hd
    rw [← hi]
    exact hne i hie

/-- Witness for the amended C6: occupant 0 in mode `FORMATION`, enemy 1 destroyed. -/
theorem C6_mode_changes_only_for_occupant_witness :
    Occupant (GS_occupied ai_mode_t.FORMATION 3) 0 (enemy_with ai_mode_t.FORMATION 3)
        (formation_right (some 0)) ∧
      ∃ GS1 en1, test sgn (GS_occupied ai_mode_t.FORMATION 3) = .ok GS1 ∧
        GS1.enemies[0]? = some en1 ∧ en1.ai_mode = ai_mode_t.FREE ∧
        (∀ i : Nat, i ≠ 0 → GS1.enemies[i]? = (GS_occupied ai_mode_t.FORMATION 3).enemies[i]?) ∧
        ((enemy_with ai_mode_t.FORMATION 3).ai_mode = ai_mode_t.FORMATION →
          ∀ (i : Nat) (d : enemy_t),
          (GS_occupied ai_mode_t.FORMATION 3).enemies[i]? = some d →
          d.ai_mode = ai_mode_t.DESTROYED → GS1.enemies[i]? = some d) :=
  ⟨occupant_GS_occupied ai_mode_t.FORMATION 3,
    C6_mode_changes_only_for_occupant sgn (GS_occupied ai_mode_t.FORMATION 3) 0
      (enemy_with ai_mode_t.FORMATION 3) (formation_right (some 0))
      (occupant_GS_occupied ai_mode_t.FORMATION 3)⟩

/-! ## Key handlers and the event queue -/

/-- Counterexample to C4 as stated: in run mode `RM_PAUSE` (not `RM_RUNNING`) the
movement key `a` makes `handle_keydown` call `start_move( PS, GS, LEFT )` and
`handle_keyup` call `stop_move( PS, GS, LEFT )`. -/
theorem C4_movement_dispatched_while_paused :
    move_key SDLK_a = some direction_t.LEFT ∧
      (W_in C0.RM_PAUSE).PS.run_mode ≠ C0.RM_RUNNING ∧
      (handle_keydown C0 E0 (W_in C0.RM_PAUSE) SDLK_a).calls
        = [Call.start_move direction_t.LEFT] ∧
      (handle_keyup E0 (W_in C0.RM_PAUSE) SDLK_a).calls
        = [Call.stop_move direction_t.LEFT] :=
  ⟨rfl, by decide, rfl, rfl⟩

/-- Claim C4, amended. For every movement key (`a`/`d`/`w`/`s` and the arrow keys) and
every run mode, `RM_RUNNING` or not, `handle_keydown` does exactly what the single call
`start_move( PS, GS, dir )` does and `handle_keyup` exactly what `stop_move( PS, GS, dir )`
does, `dir` being the direction of the key: the handlers look at no run mode, and the
one call they record is that one. -/
theorem C4_movement_keys_dispatch_in_every_mode (C : Config) (E : Env) (w : World)
    (ksym : Int) (d : direction_t) (h : move_key ksym = some d) :
    handle_keydown C E w ksym = call E (.start_move d) w ∧
      handle_keyup E w ksym = call E (.stop_move d) w ∧
      (handle_keydown C E w ksym).calls = w.trace ++ [.start_move d] ∧
      (handle_keyup E w ksym).calls = w.trace ++ [.stop_move d] := by
  have hd : handle_keydown C E w ksym = call E (.start_move d) w := by
    rcases move_key_cases ksym d h with ⟨hk, rfl⟩ | ⟨hk, rfl⟩ | ⟨hk, rfl⟩ | ⟨hk, rfl⟩ <;>
      rcases hk with rfl | rfl <;> rfl
  have hu : handle_keyup E w ksym = call E (.stop_move d) w := by
    rcases move_key_cases ksym d h with ⟨hk, rfl⟩ | ⟨hk, rfl⟩ | ⟨hk, rfl⟩ | ⟨hk, rfl⟩ <;>
      rcases hk with rfl | rfl <;> rfl
  exact ⟨hd, hu, by rw [hd, calls_call], by rw [hu, calls_call]⟩

/-- Witness for the amended C4: the left arrow key while the game is paused. -/
theorem C4_movement_keys_dispatch_in_every_mode_witness :
    move_key SDLK_LEFT = some direction_t.LEFT ∧
      handle_keydown C0 E0 (W_in C0.RM_PAUSE) SDLK_LEFT
        = call E0 (.start_move .LEFT) (W_in C0.RM_PAUSE) ∧
      handle_keyup E0 (W_in C0.RM_PAUSE) SDLK_LEFT
        = call E0 (.stop_move .LEFT) (W_in C0.RM_PAUSE) ∧
      (handle_keydown C0 E0 (W_in C0.RM_PAUSE) SDLK_LEFT).calls
        = (W_in C0.RM_PAUSE).trace ++ [.start_move .LEFT] ∧
      (handle_keyup E0 (W_in C0.RM_PAUSE) SDLK_LEFT).calls
        = (W_in C0.RM_PAUSE).trace ++ [.stop_move .LEFT] :=
  ⟨rfl, C4_movement_keys_dispatch_in_every_mode C0 E0 (W_in C0.RM_PAUSE) SDLK_LEFT
    direction_t.LEFT rfl⟩

/-- Claim C7. The warp-spawn option is off by default: `WARP_AROUND_SPAWNS_ENEMY` is
defined as `FALSE`, so code conditional on it is not enabled. -/
theorem C7_warp_spawn_option_off :
    WARP_AROUND_SPAWNS_ENEMY = FALSE ∧ c_enabled WARP_AROUND_SPAWNS_ENEMY = false :=
  ⟨rfl, rfl⟩

/-- Claim C8. Focus loss pauses a running game and nothing else: handling an
`SDL_ACTIVEEVENT` returns; the run mode afterwards is `RM_PAUSE` when the event's `gain`
is not 1 and the run mode was `RM_RUNNING`, and is the run mode before in every other
case; nothing else in the program state, the game state or the trace changes.  The same
holds for the event loop run on that single event. -/
theorem C8_focus_loss_pauses_running_game (C : Config) (E : Env) (w : World) (gain : Int) :
    process_event C E w (.ACTIVEEVENT gain)
        = .ok { w with PS := { w.PS with run_mode :=
            if gain ≠ 1 ∧ w.PS.run_mode = C.RM_RUNNING then C.RM_PAUSE else w.PS.run_mode } } ∧
      process_events C E w [.ACTIVEEVENT gain] = process_event C E w (.ACTIVEEVENT gain) ∧
      (¬ (gain ≠ 1 ∧ w.PS.run_mode = C.RM_RUNNING) →
        process_event C E w (.ACTIVEEVENT gain) = .ok w) := by
  have h0 : process_event C E w (.ACTIVEEVENT gain)
        = if gain ≠ 1 ∧ w.PS.run_mode = C.RM_RUNNING then
            .ok { w with PS := { w.PS with run_mode := C.RM_PAUSE } }
          else .ok w := rfl
  refine ⟨?_, ?_, ?_⟩
  · rw [h0]
    split_ifs <;> rfl
  · simp only [process_events]
    rw [h0]
    split_ifs <;> rfl
  · intro hn
    rw [h0, if_neg hn]

/-- Claim C9, on the code: in run mode `RM_RUNNING`, pressing right Alt starts the round
shot, but holding it makes the auto-fire section continue the fire of `WEAPON_LASER_2` as
well as of `WEAPON_ROUNDSHOT`; pressing `.` starts the fire of `WEAPON_LASER_2`, but
holding it continues no fire at all. -/
theorem C9_auto_fire_key_groups_differ :
    (W_in C0.RM_RUNNING).PS.run_mode = C0.RM_RUNNING ∧
      (handle_keydown C0 E0 (W_in C0.RM_RUNNING) SDLK_RALT).calls
        = [Call.start_round_shot fire_mode_t.FM_SINGLE] ∧
      (auto_fire C0 E0 (only_key SDLK_RALT) (W_in C0.RM_RUNNING)).calls
        = [Call.continue_fire weapon_t.WEAPON_LASER_2,
           Call.continue_fire weapon_t.WEAPON_ROUNDSHOT] ∧
      (handle_keydown C0 E0 (W_in C0.RM_RUNNING) SDLK_PERIOD).calls
        = [Call.start_fire weapon_t.WEAPON_LASER_2 fire_mode_t.FM_SINGLE] ∧
      (auto_fire C0 E0 (only_key SDLK_PERIOD) (W_in C0.RM_RUNNING)).calls = [] :=
  ⟨rfl, rfl, rfl, rfl, rfl⟩

/-- The auto-fire section makes no call at all unless the run mode is `RM_RUNNING`. -/
theorem auto_fire_idle_unless_running (C : Config) (E : Env) (keystates : Int → Nat)
    (w : World) (h : w.PS.run_mode ≠ C.RM_RUNNING) : auto_fire C E keystates w = .ok w := by
  unfold auto_fire
  rw [if_neg h]

/-- Outside `RM_RUNNING`, `handle_keydown` calls neither `start_fire` nor
`start_round_shot`, whatever the key. -/
theorem handle_keydown_starts_no_fire_unless_running (C : Config) (E : Env) (w : World)
    (ksym : Int) (h : w.PS.run_mode ≠ C.RM_RUNNING) :
    StartsNoFire w.trace (handle_keydown C E w ksym) := by
  unfold handle_keydown
  repeat' first
    | apply starts_no_fire_ite_neg _ _ _ _ h
    | apply starts_no_fire_ite
  all_goals first
    | exact starts_no_fire_ok w
    | exact starts_no_fire_call E _ w rfl
    | exact starts_no_fire_run_test C w
    | exact starts_no_fire_world w _ (toggle_music_trace E w)
    | exact starts_no_fire_world w _ (volume_up_trace C w _)
    | exact starts_no_fire_world w _ (volume_down_trace C w _)
    | exact starts_no_fire_world w _ ⟨[], (List.append_nil _).symm, fun _ hc => by cases hc⟩
    | exact starts_no_fire_call_from E Call.toggle_pause w _
        (by dsimp only [do_QUIT]; split_ifs <;> rfl) rfl

/-- In `RM_RUNNING`, each fire key makes `handle_keydown` call the fire action of the
weapon its `case` group belongs to. -/
theorem handle_keydown_fire_keys_when_running (C : Config) (E : Env) (w : World)
    (h : w.PS.run_mode = C.RM_RUNNING) :
    (∀ k, k = SDLK_COMMA ∨ k = SDLK_RCTRL ∨ k = SDLK_LCTRL →
      handle_keydown C E w k = call E (.start_fire .WEAPON_LASER_1 .FM_SINGLE) w) ∧
    (∀ k, k = SDLK_PERIOD ∨ k = SDLK_RSHIFT ∨ k = SDLK_LSHIFT ∨ k = SDLK_LSUPER →
      handle_keydown C E w k = call E (.start_fire .WEAPON_LASER_2 .FM_SINGLE) w) ∧
    (∀ k, k = SDLK_RALT ∨ k = SDLK_LALT →
      handle_keydown C E w k = call E (.start_round_shot .FM_SINGLE) w) := by
  refine ⟨?_, ?_, ?_⟩
  · rintro k (rfl | rfl | rfl) <;> simp +decide [handle_keydown, h]
  · rintro k (rfl | rfl | rfl | rfl) <;> simp +decide [handle_keydown, h]
  · rintro k (rfl | rfl) <;> simp +decide [handle_keydown, h]

/-! ## Volume -/

/-- Claim C10. Volume range invariant: if both volumes lie in `[0, MIX_MAX_VOLUME]` and
`VOLUME_STEPS` is non-negative, then after `volume_up` or `volume_down` with any channel
mask both still lie in `[0, MIX_MAX_VOLUME]`; a channel selected by the mask becomes
`min (v + VOLUME_STEPS) MIX_MAX_VOLUME`, resp. `max (v - VOLUME_STEPS) 0`, and a channel
not selected keeps its value.  The range holds after `init_sound`, which, whenever it
returns, has set both volumes to `MIX_MAX_VOLUME / 2`, and which returns when all audio
resources load. -/
theorem C10_volume_range_invariant (C : Config) (w : World) (channel : Int)
    (hs : 0 ≤ C.VOLUME_STEPS) (hr : VolumesInRange C w.PS) :
    VolumesInRange C (volume_up C w channel).PS ∧
      VolumesInRange C (volume_down C w channel).PS ∧
      (volume_up C w channel).PS.volume_fx
        = (if Int.land channel C.VOLUME_FX ≠ 0 then
            min (w.PS.volume_fx + C.VOLUME_STEPS) C.MIX_MAX_VOLUME
          else w.PS.volume_fx) ∧
      (volume_up C w channel).PS.volume_music
        = (if Int.land channel C.VOLUME_MUSIC ≠ 0 then
            min (w.PS.volume_music + C.VOLUME_STEPS) C.MIX_MAX_VOLUME
          else w.PS.volume_music) ∧
      (volume_down C w channel).PS.volume_fx
        = (if Int.land channel C.VOLUME_FX ≠ 0 then max (w.PS.volume_fx - C.VOLUME_STEPS) 0
          else w.PS.volume_fx) ∧
      (volume_down C w channel).PS.volume_music
        = (if Int.land channel C.VOLUME_MUSIC ≠ 0 then
            max (w.PS.volume_music - C.VOLUME_STEPS) 0
          else w.PS.volume_music) ∧
      (∀ (E : Env) (A : audio_init_t) (w0 w1 : World), init_sound C E A w0 = .ok w1 →
        w1.PS.volume_fx = Int.tdiv C.MIX_MAX_VOLUME 2 ∧
        w1.PS.volume_music = Int.tdiv C.MIX_MAX_VOLUME 2 ∧ VolumesInRange C w1.PS) ∧
      (∀ (E : Env) (w0 : World), ∃ w1, init_sound C E audio_ok w0 = .ok w1) := by
  obtain ⟨⟨hf0, hf1⟩, ⟨hm0, hm1⟩⟩ := hr
  have hmax : 0 ≤ C.MIX_MAX_VOLUME := le_trans hf0 hf1
  have ufx := volume_up_fx C w channel
  have umu := volume_up_music C w channel
  have dfx := volume_down_fx C w channel
  have dmu := volume_down_music C w channel
  refine ⟨⟨⟨?_, ?_⟩, ⟨?_, ?_⟩⟩, ⟨⟨?_, ?_⟩, ⟨?_, ?_⟩⟩, ufx, umu, dfx, dmu, ?_, ?_⟩
  · rw [ufx]; split_ifs <;> omega
  · rw [ufx]; split_ifs <;> omega
  · rw [umu]; split_ifs <;> omega
  · rw [umu]; split_ifs <;> omega
  · rw [dfx]; split_ifs <;> omega
  · rw [dfx]; split_ifs <;> omega
  · rw [dmu]; split_ifs <;> omega
  · rw [dmu]; split_ifs <;> omega
  · intro E A w0 w1 h
    obtain ⟨h1, h2⟩ := init_sound_sets_volumes C E A w0 w1 h
    have hd : 0 ≤ Int.tdiv C.MIX_MAX_VOLUME 2 ∧ Int.tdiv C.MIX_MAX_VOLUME 2 ≤ C.MIX_MAX_VOLUME := by
      rw [Int.tdiv_eq_ediv hmax (by norm_num)]
      omega
    exact ⟨h1, h2, ⟨by rw [h1]; exact hd, by rw [h2]; exact hd⟩⟩
  · intro E w0
    exact init_sound_returns C E w0

/-- Witness for C10: both volumes at 64 of 128, steps of 8, the mask `VOLUME_ALL`. -/
theorem C10_volume_range_invariant_witness :
    0 ≤ C0.VOLUME_STEPS ∧ VolumesInRange C0 (W_in C0.RM_RUNNING).PS ∧
      (volume_up C0 (W_in C0.RM_RUNNING) C0.VOLUME_ALL).PS.volume_fx = 72 ∧
      (volume_down C0 (W_in C0.RM_RUNNING) C0.VOLUME_FX).PS.volume_music = 64 ∧
      VolumesInRange C0 (volume_up C0 (W_in C0.RM_RUNNING) C0.VOLUME_ALL).PS :=
  ⟨by decide, by unfold VolumesInRange; decide, rfl, rfl,
    (C10_volume_range_invariant C0 (W_in C0.RM_RUNNING) C0.VOLUME_ALL (by decide)
      (by unfold VolumesInRange; decide)).1⟩

end MayFirst
